import Mathlib

set_option linter.unnecessarySeqFocus false

/-!
Verification of the triserver telnet gateway (src/main.rs) against its
natural-language specification.

The development shallowly embeds the parts of the source the claims are
about:

* the telnet negotiation decision logic of `create_client_connection`
  (the big `match option { ... }` on lines 191-278 of main.rs);
* the CP437 decoding applied to backend `Data` events (line 187);
* the bridge loop's per-iteration dispatch, including the panic points
  introduced by `unwrap`/`expect` and the teardown message (lines 163-298);
* the client-manager (registry actor) message loop of
  `launch_client_manager` (lines 116-157).

Rust threads, sockets and channels are modelled by explicit state passing:
each loop body becomes a step function on an explicit state, a call that
can `panic!` becomes an `Option`/outcome-valued function, and message
histories become lists of messages.
-/

namespace Triserver

/-- The four telnet negotiation actions of the `telnet` crate
(`Action::Do`, `Action::Dont`, `Action::Will`, `Action::Wont`). -/
inductive Action where
  | doAct
  | dont
  | will
  | wont
deriving DecidableEq, Repr

/-- The telnet options the source matches on (`TelnetOption`); every
variant the source's final `_ => ()` arm covers is collapsed into
`other n`, identified by its option code. -/
inductive TOpt where
  | echo
  | suppressGoAhead
  | transmitBinary
  | ttype
  | sndloc
  | other (code : Nat)
deriving DecidableEq, Repr

/-- One outbound emission of the bridge: either a negotiation reply
(`telnet.negotiate(&action, option)`) or a sub-negotiation payload
(`telnet.subnegotiate(option, bytes)`); the payload is kept as the
string whose bytes the source sends. -/
inductive Emit where
  | negotiate (a : Action) (o : TOpt)
  | subnegotiate (o : TOpt) (payload : String)
deriving DecidableEq, Repr

/-- The fixed terminal-type string of main.rs line 271
(`String::from("ansi-bbs")`). -/
def terminalType : String := "ansi-bbs"

/-- The bridge's response to an inbound `TelnetEvent::Negotiation(action,
option)`, transcribed from the `match option { ... }` on lines 198-278 of
main.rs.  `ipText` is `ip_addr.to_string()`, the textual peer address of
this session's client (line 204). -/
def bridgeResponse (ipText : String) : TOpt → Action → List Emit
  | TOpt.sndloc, Action.doAct =>
      [Emit.negotiate Action.will TOpt.sndloc,
       Emit.subnegotiate TOpt.sndloc ipText]
  | TOpt.sndloc, Action.dont => [Emit.negotiate Action.wont TOpt.sndloc]
  | TOpt.sndloc, Action.will => [Emit.negotiate Action.dont TOpt.sndloc]
  | TOpt.sndloc, Action.wont => [Emit.negotiate Action.dont TOpt.sndloc]
  | TOpt.echo, Action.doAct => [Emit.negotiate Action.will TOpt.echo]
  | TOpt.echo, Action.dont => [Emit.negotiate Action.wont TOpt.echo]
  | TOpt.echo, Action.will => [Emit.negotiate Action.doAct TOpt.echo]
  | TOpt.echo, Action.wont => [Emit.negotiate Action.dont TOpt.echo]
  | TOpt.suppressGoAhead, Action.doAct =>
      [Emit.negotiate Action.will TOpt.suppressGoAhead]
  | TOpt.suppressGoAhead, Action.dont =>
      [Emit.negotiate Action.will TOpt.suppressGoAhead]
  | TOpt.suppressGoAhead, Action.will =>
      [Emit.negotiate Action.doAct TOpt.suppressGoAhead]
  | TOpt.suppressGoAhead, Action.wont =>
      [Emit.negotiate Action.doAct TOpt.suppressGoAhead]
  | TOpt.transmitBinary, Action.doAct =>
      [Emit.negotiate Action.will TOpt.transmitBinary]
  | TOpt.transmitBinary, Action.dont =>
      [Emit.negotiate Action.will TOpt.transmitBinary]
  | TOpt.transmitBinary, Action.will =>
      [Emit.negotiate Action.doAct TOpt.transmitBinary]
  | TOpt.transmitBinary, Action.wont =>
      [Emit.negotiate Action.doAct TOpt.transmitBinary]
  | TOpt.ttype, Action.doAct =>
      [Emit.negotiate Action.will TOpt.ttype,
       Emit.subnegotiate TOpt.ttype terminalType]
  | TOpt.ttype, _ => []
  | TOpt.other _, _ => []

/-- The decision table of spec section 4.2, written from the spec's words
(a refinement reference, to be compared with `bridgeResponse`): a dash
cell ("—") is no response, per the spec's own reading of the table. -/
def specTable (ipText : String) : TOpt → Action → List Emit
  | TOpt.sndloc, Action.doAct =>
      [Emit.negotiate Action.will TOpt.sndloc,
       Emit.subnegotiate TOpt.sndloc ipText]
  | TOpt.sndloc, Action.dont => [Emit.negotiate Action.wont TOpt.sndloc]
  | TOpt.sndloc, Action.will => []
  | TOpt.sndloc, Action.wont => []
  | TOpt.echo, Action.doAct => [Emit.negotiate Action.will TOpt.echo]
  | TOpt.echo, Action.dont => [Emit.negotiate Action.wont TOpt.echo]
  | TOpt.echo, Action.will => [Emit.negotiate Action.doAct TOpt.echo]
  | TOpt.echo, Action.wont => [Emit.negotiate Action.dont TOpt.echo]
  | TOpt.suppressGoAhead, Action.doAct =>
      [Emit.negotiate Action.will TOpt.suppressGoAhead]
  | TOpt.suppressGoAhead, Action.dont =>
      [Emit.negotiate Action.will TOpt.suppressGoAhead]
  | TOpt.suppressGoAhead, Action.will =>
      [Emit.negotiate Action.doAct TOpt.suppressGoAhead]
  | TOpt.suppressGoAhead, Action.wont =>
      [Emit.negotiate Action.doAct TOpt.suppressGoAhead]
  | TOpt.transmitBinary, Action.doAct =>
      [Emit.negotiate Action.will TOpt.transmitBinary]
  | TOpt.transmitBinary, Action.dont =>
      [Emit.negotiate Action.will TOpt.transmitBinary]
  | TOpt.transmitBinary, Action.will =>
      [Emit.negotiate Action.doAct TOpt.transmitBinary]
  | TOpt.transmitBinary, Action.wont =>
      [Emit.negotiate Action.doAct TOpt.transmitBinary]
  | TOpt.ttype, Action.doAct =>
      [Emit.negotiate Action.will TOpt.ttype,
       Emit.subnegotiate TOpt.ttype terminalType]
  | TOpt.ttype, _ => []
  | TOpt.other _, _ => []

/-- The textual form of a client's network address (`IpAddr`); the source
only ever consumes an `IpAddr` through `to_string()` (main.rs line 204),
so the model keeps just that text. -/
structure IpAddr where
  text : String
deriving DecidableEq, Repr

/-- `ClientConnection` of main.rs lines 26-29: the session identifier and
the client's network address.  `Uuid` is modelled by `Nat` (the model
mints identifiers from a counter; the source from `Uuid::new_v4`, both
fresh per `Connect`). -/
structure ClientConnection where
  client_id : Nat
  ip_addr : IpAddr
deriving DecidableEq, Repr

/-- The pure part of `create_client_connection` (main.rs lines 159-161):
building the `ClientConnection` record from the minted identifier and the
socket's peer address. -/
def mkClientConnection (client_id : Nat) (peer : IpAddr) : ClientConnection :=
  { client_id := client_id, ip_addr := peer }

/-- `ClientManagerMessage` of main.rs lines 16-23.  `Connect` carries the
socket; of the socket the actor consumes only `peer_addr()`, which can
fail, hence `Option IpAddr`. -/
inductive ClientManagerMessage where
  | connect (peer : Option IpAddr)
  | connectionClosed (client_id : Nat)
deriving DecidableEq, Repr

/-- The registry actor's state: the shared client map (`SharedClientMap`
keyed by the identifier) together with the supply of fresh identifiers
(standing in for `Uuid::new_v4`). -/
structure ActorState where
  next : Nat
  reg : Nat → Option ClientConnection

/-- The initial actor state: an empty client map. -/
def initActorState : ActorState := { next := 0, reg := fun _ => none }

/-- `SharedClientMap::insert` (main.rs lines 49-52). -/
def mapInsert (reg : Nat → Option ClientConnection) (k : Nat)
    (v : ClientConnection) : Nat → Option ClientConnection :=
  fun i => if i = k then some v else reg i

/-- `SharedClientMap::remove` (main.rs lines 59-62). -/
def mapRemove (reg : Nat → Option ClientConnection) (k : Nat) :
    Nat → Option ClientConnection :=
  fun i => if i = k then none else reg i

/-- One iteration of the client-manager message loop (main.rs lines
121-152), given the message received.  `none` is a panic of the actor
thread: on `Connect`, `create_client_connection` runs on this thread and
`stream.peer_addr().unwrap()` (line 160) panics when the peer address
cannot be determined.  On `ConnectionClosed` the source looks the id up,
re-checks the stored `client_id`, and removes only on a match; an absent
id is only logged (lines 137-148). -/
def actorStep (s : ActorState) : ClientManagerMessage → Option ActorState
  | ClientManagerMessage.connect none => none
  | ClientManagerMessage.connect (some peer) =>
      let client_id := s.next
      let cc := mkClientConnection client_id peer
      if client_id = cc.client_id then
        some { next := s.next + 1, reg := mapInsert s.reg client_id cc }
      else
        some { next := s.next + 1, reg := s.reg }
  | ClientManagerMessage.connectionClosed client_id =>
      match s.reg client_id with
      | some cc =>
          if client_id = cc.client_id then
            some { s with reg := mapRemove s.reg client_id }
          else
            some s
      | none => some s

/-- The actor's processing of a whole message sequence; `none` when some
message made the actor thread panic. -/
def runActor (s : ActorState) : List ClientManagerMessage → Option ActorState
  | [] => some s
  | m :: ms => match actorStep s m with
      | some s1 => runActor s1 ms
      | none => none

/-- Number of `Connect` messages in a trace; with identifiers minted from
the counter, the identifiers whose `Connect` has been processed are
exactly those below this count. -/
def numConnects : List ClientManagerMessage → Nat
  | [] => 0
  | ClientManagerMessage.connect _ :: ms => numConnects ms + 1
  | ClientManagerMessage.connectionClosed _ :: ms => numConnects ms

/-- System-realizable traces, relative to the number of identifiers
minted so far: every `Connect` carries a determinable peer address, and a
`ConnectionClosed{id}` is only ever sent by the bridge of an already
minted session, so its id is below the mint counter. -/
def WFTrace : Nat → List ClientManagerMessage → Prop
  | _, [] => True
  | n, ClientManagerMessage.connect peer :: ms =>
      peer.isSome ∧ WFTrace (n + 1) ms
  | n, ClientManagerMessage.connectionClosed id :: ms =>
      id < n ∧ WFTrace n ms

/-- `TelnetError` of the telnet crate as the source discriminates it
(main.rs lines 280-288): only `InternalQueueErr` is handled specially. -/
inductive TelnetErr where
  | internalQueueErr
  | otherErr
deriving DecidableEq, Repr

/-- `TelnetEvent` as matched by the bridge loop (main.rs lines 185-293). -/
inductive TelnetEvent where
  | data (buffer : List (Fin 256))
  | negotiation (a : Action) (o : TOpt)
  | telError (e : TelnetErr)
  | unknownIAC (cmd : Nat)
  | subnegEvent (o : TOpt) (payload : List (Fin 256))
  | timedOut
  | noData
deriving DecidableEq, Repr

/-- What the environment hands one iteration of the bridge loop: the
result of the non-blocking client-socket read (`Ok bytes_read` or an
error such as `WouldBlock`), whether writes to the backend telnet
connection succeed (`telnet.write` / `negotiate` / `subnegotiate`), the
result of `telnet.read_nonblocking()`, and whether the client-socket
`write_all`/`flush` succeed. -/
structure LoopInput where
  clientRead : Except Unit Nat
  telnetWriteOk : Bool
  telnetRead : Except Unit TelnetEvent
  clientWriteOk : Bool
deriving Repr

/-- How one bridge-loop iteration ends: keep looping, `break` out of the
loop (reaching the teardown code after it), or a thread panic from one of
the `unwrap`/`expect` calls inside the loop body. -/
inductive Outcome where
  | continueLoop
  | exitLoop
  | panic
deriving DecidableEq, Repr

/-- One iteration of the bridge loop body (main.rs lines 172-295),
transcribed arm by arm: a positive client read is forwarded to the
backend with `telnet.write(..).unwrap()` (panic on failure); a zero-byte
read (peer closed the socket) falls into the `bytes_read > 0` guard and
does nothing; a read error is ignored; `read_nonblocking().expect` panics
on error; a `Data` event decodes and writes to the client with
`write_all(..).expect` / `flush().expect` (panic on failure); a
`Negotiation` event replies per `bridgeResponse` with `unwrap` on each
send; `Error(InternalQueueErr)` breaks the loop; every other event
continues. -/
def loopStep (ipText : String) (inp : LoopInput) : Outcome :=
  let forwarded : Outcome :=
    match inp.clientRead with
    | Except.ok n =>
        if n > 0 then
          if inp.telnetWriteOk then Outcome.continueLoop else Outcome.panic
        else Outcome.continueLoop
    | Except.error _ => Outcome.continueLoop
  match forwarded with
  | Outcome.panic => Outcome.panic
  | _ =>
    match inp.telnetRead with
    | Except.error _ => Outcome.panic
    | Except.ok ev =>
      match ev with
      | TelnetEvent.data _ =>
          if inp.clientWriteOk then Outcome.continueLoop else Outcome.panic
      | TelnetEvent.negotiation a o =>
          if bridgeResponse ipText o a = [] then Outcome.continueLoop
          else if inp.telnetWriteOk then Outcome.continueLoop
          else Outcome.panic
      | TelnetEvent.telError TelnetErr.internalQueueErr => Outcome.exitLoop
      | TelnetEvent.telError TelnetErr.otherErr => Outcome.continueLoop
      | TelnetEvent.unknownIAC _ => Outcome.continueLoop
      | TelnetEvent.subnegEvent _ _ => Outcome.continueLoop
      | TelnetEvent.timedOut => Outcome.continueLoop
      | TelnetEvent.noData => Outcome.continueLoop

/-- How the bridge thread ends: the loop exited via `break` (so the code
after the loop runs), or the thread panicked (unwinding past it). -/
inductive BridgeEnd where
  | exited
  | panicked
deriving DecidableEq, Repr

/-- Running the bridge loop on a finite schedule of iteration inputs:
`none` while the loop is still running when the schedule ends. -/
def runLoop (ipText : String) : List LoopInput → Option BridgeEnd
  | [] => none
  | i :: is =>
      match loopStep ipText i with
      | Outcome.continueLoop => runLoop ipText is
      | Outcome.exitLoop => some BridgeEnd.exited
      | Outcome.panic => some BridgeEnd.panicked

/-- The lifecycle messages the bridge thread sends to the registry actor
when it ends: the `try_send(ConnectionClosed  \x7b client_id \x7d)` on main.rs
line 296 runs only after a normal loop exit; a panic unwinds the thread
without reaching it. -/
def teardownMessages (client_id : Nat) : BridgeEnd → List ClientManagerMessage
  | BridgeEnd.exited => [ClientManagerMessage.connectionClosed client_id]
  | BridgeEnd.panicked => []

/-- The whole bridge thread (the closure of main.rs lines 164-298): the
`Telnet::connect_timeout(..).expect` on lines 168-169 panics the thread
before the loop when the backend connection fails; otherwise the loop
runs on its input schedule and teardown follows how it ended.  Returns
the thread's end and the lifecycle messages it sent, `none` when the
schedule ran out with the loop still going. -/
def bridgeThread (connectOk : Bool) (client_id : Nat) (ipText : String)
    (inputs : List LoopInput) : Option (BridgeEnd × List ClientManagerMessage) :=
  if connectOk then
    (runLoop ipText inputs).map fun e => (e, teardownMessages client_id e)
  else
    some (BridgeEnd.panicked, [])

/-- The Unicode code points of CP437 bytes `0x80`-`0xFF`, the table the
`codepage_437` crate's `CP437_CONTROL` dialect uses for the high half
(the low half `0x00`-`0x7F` is the identity: control characters are
preserved as control characters). -/
def cp437High : List Nat :=
  [0x00C7, 0x00FC, 0x00E9, 0x00E2, 0x00E4, 0x00E0, 0x00E5, 0x00E7,
   0x00EA, 0x00EB, 0x00E8, 0x00EF, 0x00EE, 0x00EC, 0x00C4, 0x00C5,
   0x00C9, 0x00E6, 0x00C6, 0x00F4, 0x00F6, 0x00F2, 0x00FB, 0x00F9,
   0x00FF, 0x00D6, 0x00DC, 0x00A2, 0x00A3, 0x00A5, 0x20A7, 0x0192,
   0x00E1, 0x00ED, 0x00F3, 0x00FA, 0x00F1, 0x00D1, 0x00AA, 0x00BA,
   0x00BF, 0x2310, 0x00AC, 0x00BD, 0x00BC, 0x00A1, 0x00AB, 0x00BB,
   0x2591, 0x2592, 0x2593, 0x2502, 0x2524, 0x2561, 0x2562, 0x2556,
   0x2555, 0x2563, 0x2551, 0x2557, 0x255D, 0x255C, 0x255B, 0x2510,
   0x2514, 0x2534, 0x252C, 0x251C, 0x2500, 0x253C, 0x255E, 0x255F,
   0x255A, 0x2554, 0x2569, 0x2566, 0x2560, 0x2550, 0x256C, 0x2567,
   0x2568, 0x2564, 0x2565, 0x2559, 0x2558, 0x2552, 0x2553, 0x256B,
   0x256A, 0x2518, 0x250C, 0x2588, 0x2584, 0x258C, 0x2590, 0x2580,
   0x03B1, 0x00DF, 0x0393, 0x03C0, 0x03A3, 0x03C3, 0x00B5, 0x03C4,
   0x03A6, 0x0398, 0x03A9, 0x03B4, 0x221E, 0x03C6, 0x03B5, 0x2229,
   0x2261, 0x00B1, 0x2265, 0x2264, 0x2320, 0x2321, 0x00F7, 0x2248,
   0x00B0, 0x2219, 0x00B7, 0x221A, 0x207F, 0x00B2, 0x25A0, 0x00A0]

/-- The Unicode code point a single CP437 byte decodes to under
`CP437_CONTROL`: identity below `0x80`, table lookup above. -/
def cp437ToUnicode (b : Nat) : Nat :=
  if b < 0x80 then b else cp437High.getD (b - 0x80) 0

/-- The Encoding Adapter, `String::from_cp437(buffer, &CP437_CONTROL)`
(main.rs line 187): every byte decodes to one character, with no error
case. -/
def decodeCp437 (bs : List (Fin 256)) : String :=
  String.mk (bs.map fun b => Char.ofNat (cp437ToUnicode b.val))

/-- The UTF-8 encoding of one Unicode code point, as a list of byte
values; this is what `String::as_bytes` exposes per character of the
decoded string (main.rs line 188). -/
def utf8EncodeChar (c : Nat) : List Nat :=
  if c < 0x80 then [c]
  else if c < 0x800 then
    [0xC0 + c / 0x40, 0x80 + c % 0x40]
  else if c < 0x10000 then
    [0xE0 + c / 0x1000, 0x80 + c / 0x40 % 0x40, 0x80 + c % 0x40]
  else
    [0xF0 + c / 0x40000, 0x80 + c / 0x1000 % 0x40,
     0x80 + c / 0x40 % 0x40, 0x80 + c % 0x40]

/-- The bytes written to the client socket for a backend `Data` event:
`response.as_bytes()` where `response` is the CP437-decoded string
(main.rs lines 186-188), i.e. the UTF-8 bytes of the decoded code
points. -/
def clientBytes (bs : List (Fin 256)) : List Nat :=
  (bs.map fun b => utf8EncodeChar (cp437ToUnicode b.val)).flatten

/-- The client-map invariant the actor maintains: every stored
`ClientConnection` record carries the identifier it is keyed under
(main.rs line 132 inserts the record built from the same id). -/
def RegConsistent (s : ActorState) : Prop :=
  ∀ i cc, s.reg i = some cc → cc.client_id = i

/-- Main lemma for the registry-consistency claim: from any consistent
actor state, a realizable message trace is processed without panic, the
mint counter advances by the number of `Connect` messages, consistency is
preserved, and an identifier is in the map exactly when it was there
already or was minted by a `Connect` of this trace, and no
`ConnectionClosed` for it occurs in the trace. -/
theorem runActor_spec (tr : List ClientManagerMessage) :
    ∀ s : ActorState, WFTrace s.next tr → RegConsistent s →
    ∃ s', runActor s tr = some s' ∧
      s'.next = s.next + numConnects tr ∧
      RegConsistent s' ∧
      ∀ id, ((s'.reg id).isSome ↔
        (((s.reg id).isSome ∨ (s.next ≤ id ∧ id < s.next + numConnects tr)) ∧
         ClientManagerMessage.connectionClosed id ∉ tr)) := by
  induction tr with
  | nil =>
      intro s _ hc
      refine ⟨s, rfl, by simp [numConnects], hc, ?_⟩
      intro id
      simp only [numConnects, Nat.add_zero, List.not_mem_nil, not_false_iff, and_true]
      constructor
      · exact fun h => Or.inl h
      · rintro (h | ⟨h1, h2⟩)
        · exact h
        · omega
  | cons m t ih =>
      intro s hwf hc
      match m with
      | ClientManagerMessage.connect peer =>
        obtain ⟨hp, hwt⟩ : peer.isSome ∧ WFTrace (s.next + 1) t := hwf
        obtain ⟨p, rfl⟩ := Option.isSome_iff_exists.mp hp
        have hstep : actorStep s (ClientManagerMessage.connect (some p)) =
            some ⟨s.next + 1, mapInsert s.reg s.next (mkClientConnection s.next p)⟩ := by
          simp [actorStep, mkClientConnection]
        have hc1 : RegConsistent
            ⟨s.next + 1, mapInsert s.reg s.next (mkClientConnection s.next p)⟩ := by
          intro i cc h
          by_cases hi : i = s.next
          · subst hi
            simp only [mapInsert, if_pos rfl] at h
            cases h
            rfl
          · simp only [mapInsert, if_neg hi] at h
            exact hc i cc h
        obtain ⟨s', hrun, hnext, hc', hmem⟩ :=
          ih ⟨s.next + 1, mapInsert s.reg s.next (mkClientConnection s.next p)⟩ hwt hc1
        refine ⟨s', ?_, ?_, hc', ?_⟩
        · simp only [runActor, hstep]
          exact hrun
        · rw [hnext]
          simp [numConnects]
          omega
        · intro id
          rw [hmem id]
          simp only [mapInsert, numConnects, List.mem_cons]
          by_cases hid : id = s.next <;> by_cases hP : ((s.reg id).isSome : Prop) <;>
            simp [hid, hP] <;> omega
      | ClientManagerMessage.connectionClosed j =>
        obtain ⟨hj, hwt⟩ : j < s.next ∧ WFTrace s.next t := hwf
        have hone : ∃ s1, actorStep s (ClientManagerMessage.connectionClosed j) = some s1 ∧
            s1.next = s.next ∧ RegConsistent s1 ∧
            ∀ id, ((s1.reg id).isSome ↔ ((s.reg id).isSome ∧ id ≠ j)) := by
          cases hreg : s.reg j with
          | none =>
              refine ⟨s, by simp [actorStep, hreg], rfl, hc, ?_⟩
              intro id
              by_cases hid : id = j
              · subst hid
                simp [hreg]
              · simp [hid]
          | some cc =>
              have hcc : cc.client_id = j := hc j cc hreg
              refine ⟨{ s with reg := mapRemove s.reg j }, ?_, rfl, ?_, ?_⟩
              · simp [actorStep, hreg, hcc]
              · intro i c h
                by_cases hi : i = j
                · subst hi
                  simp only [mapRemove, if_pos rfl] at h
                  cases h
                · simp only [mapRemove, if_neg hi] at h
                  exact hc i c h
              · intro id
                by_cases hid : id = j
                · subst hid
                  simp [mapRemove]
                · simp [mapRemove, hid]
        obtain ⟨s1, hstep, hnx, hc1, hm1⟩ := hone
        obtain ⟨s', hrun, hnext, hc', hmem⟩ := ih s1 (by rw [hnx]; exact hwt) hc1
        refine ⟨s', ?_, ?_, hc', ?_⟩
        · simp only [runActor, hstep]
          exact hrun
        · rw [hnext, hnx]
          simp [numConnects]
        · intro id
          rw [hmem id, hm1 id, hnx]
          simp only [numConnects, List.mem_cons]
          by_cases hid : id = j <;> by_cases hP : ((s.reg id).isSome : Prop) <;>
            simp [hid, hP] <;> omega

/-- C1 (counterexample): the claim says every (option, action) pair is
answered exactly per the spec section 4.2 table, whose Report-location
row marks the inbound Will cell with a dash (no response); but the code
(main.rs lines 210-212) answers inbound Will+Report-location with
outbound Dont, so the response differs from the table entry. -/
theorem c1_table_counterexample :
    bridgeResponse "203.0.113.7" TOpt.sndloc Action.will ≠
      specTable "203.0.113.7" TOpt.sndloc Action.will := by decide

/-- C1 (amended): for every recognized option and every inbound action
the bridge's response is deterministic and equals the spec section 4.2
table entry, except that for Report-location an inbound Will or Wont is
answered with outbound Dont rather than with no response; unrecognized
options draw no response for any action (and in particular Do+Echo yields
Will+Echo and Will+Suppress-go-ahead yields Do+Suppress-go-ahead). -/
theorem c1_negotiation_table_amended (ipText : String) (o : TOpt) (a : Action) :
    bridgeResponse ipText o a =
      (if o = TOpt.sndloc ∧ (a = Action.will ∨ a = Action.wont) then
        [Emit.negotiate Action.dont TOpt.sndloc]
      else specTable ipText o a) := by
  cases o <;> cases a <;> simp [bridgeResponse, specTable]

/-- C2 (counterexample): the claim says an inbound Wont for
Report-location elicits no response at all, but the code (main.rs lines
213-215) replies with outbound Dont. -/
theorem c2_sndloc_counterexample :
    bridgeResponse "203.0.113.7" TOpt.sndloc Action.wont ≠ [] := by decide

/-- C2 (amended): for the Report-location option, an inbound Do elicits
outbound Will followed by a sub-negotiation carrying the client's network
address as text, an inbound Dont elicits outbound Wont, and an inbound
Will or Wont each elicits outbound Dont (not silence). -/
theorem c2_sndloc_row_amended (ipText : String) :
    bridgeResponse ipText TOpt.sndloc Action.doAct =
      [Emit.negotiate Action.will TOpt.sndloc,
       Emit.subnegotiate TOpt.sndloc ipText] ∧
    bridgeResponse ipText TOpt.sndloc Action.dont =
      [Emit.negotiate Action.wont TOpt.sndloc] ∧
    bridgeResponse ipText TOpt.sndloc Action.will =
      [Emit.negotiate Action.dont TOpt.sndloc] ∧
    bridgeResponse ipText TOpt.sndloc Action.wont =
      [Emit.negotiate Action.dont TOpt.sndloc] :=
  ⟨rfl, rfl, rfl, rfl⟩

/-- C3 (code evaluated at the failing inputs): a client-socket write
failure during a backend Data event makes the loop iteration panic
(`write_all(..).expect`, main.rs line 188), so the bridge thread ends
panicked and sends no ConnectionClosed; a backend connect failure
likewise panics before the loop (`connect_timeout(..).expect`, lines
168-169) with no ConnectionClosed — both contradict the claim that
session termination is always followed by exactly one ConnectionClosed.
Only the internal-protocol-error path breaks the loop and reaches the
teardown send of main.rs line 296. -/
theorem c3_fatal_error_skips_connection_closed :
    loopStep "203.0.113.7"
      ⟨Except.ok 0, true, Except.ok (TelnetEvent.data [(0x41 : Fin 256)]), false⟩ =
      Outcome.panic ∧
    bridgeThread true 7 "203.0.113.7"
      [⟨Except.ok 0, true, Except.ok (TelnetEvent.data [(0x41 : Fin 256)]), false⟩] =
      some (BridgeEnd.panicked, []) ∧
    bridgeThread false 7 "203.0.113.7" [] = some (BridgeEnd.panicked, []) ∧
    bridgeThread true 7 "203.0.113.7"
      [⟨Except.ok 0, true, Except.ok (TelnetEvent.telError TelnetErr.internalQueueErr), true⟩] =
      some (BridgeEnd.exited, [ClientManagerMessage.connectionClosed 7]) :=
  ⟨rfl, rfl, rfl, rfl⟩

/-- C4: for every realizable message trace, the registry actor processes
it without failing, and between any two messages (i.e. after any
processed trace) the registry contains exactly the identifiers whose
Connect has been processed (those minted so far) and for which no
ConnectionClosed has yet been processed. -/
theorem c4_registry_consistency (tr : List ClientManagerMessage)
    (h : WFTrace 0 tr) :
    ∃ s', runActor initActorState tr = some s' ∧
      ∀ id, ((s'.reg id).isSome ↔
        (id < numConnects tr ∧ ClientManagerMessage.connectionClosed id ∉ tr)) := by
  obtain ⟨s', hrun, hnext, hc', hmem⟩ :=
    runActor_spec tr initActorState h (fun i cc hx => by simp [initActorState] at hx)
  refine ⟨s', hrun, ?_⟩
  intro id
  rw [hmem id]
  simp [initActorState]

/-- Witness for C4 at the concrete trace of one Connect followed by the
matching ConnectionClosed. -/
theorem c4_registry_consistency_witness :
    WFTrace 0 [ClientManagerMessage.connect (some ⟨"203.0.113.7"⟩),
               ClientManagerMessage.connectionClosed 0] ∧
    (∃ s', runActor initActorState
        [ClientManagerMessage.connect (some ⟨"203.0.113.7"⟩),
         ClientManagerMessage.connectionClosed 0] = some s' ∧
      ∀ id, ((s'.reg id).isSome ↔
        (id < numConnects [ClientManagerMessage.connect (some ⟨"203.0.113.7"⟩),
                           ClientManagerMessage.connectionClosed 0] ∧
         ClientManagerMessage.connectionClosed id ∉
           [ClientManagerMessage.connect (some ⟨"203.0.113.7"⟩),
            ClientManagerMessage.connectionClosed 0]))) :=
  ⟨⟨rfl, by omega, trivial⟩, c4_registry_consistency _ ⟨rfl, by omega, trivial⟩⟩

/-- C5 (code evaluated at the failing input): when the peer closes the
client socket, the non-blocking read returns `Ok(0)`; the loop body's
`bytes_read > 0` guard (main.rs line 177) makes that a no-op, the
iteration continues, and the loop never exits no matter how many such
iterations pass — the closure is never detected, so the registry never
gets a ConnectionClosed for the session, contradicting the claim. -/
theorem c5_client_close_undetected (ipText : String) (k : Nat) :
    loopStep ipText ⟨Except.ok 0, true, Except.ok TelnetEvent.noData, true⟩ =
      Outcome.continueLoop ∧
    runLoop ipText
      (List.replicate k ⟨Except.ok 0, true, Except.ok TelnetEvent.noData, true⟩) =
      none := by
  refine ⟨rfl, ?_⟩
  induction k with
  | zero => rfl
  | succ n ihn =>
      rw [List.replicate_succ]
      exact ihn

/-- C6 (code evaluated at the failing input): a Connect message whose
socket has no determinable peer address makes the actor's processing
panic (`stream.peer_addr().unwrap()`, main.rs line 160, runs on the
actor thread), terminating the actor instead of dropping the message
with a diagnostic and continuing. -/
theorem c6_bad_peer_addr_panics_actor (s : ActorState) :
    actorStep s (ClientManagerMessage.connect none) = none := rfl

/-- C7: processing a ConnectionClosed for an identifier absent from the
registry leaves the actor state unchanged, and processing the same
ConnectionClosed twice leaves the registry in exactly the state of
processing it once. -/
theorem c7_connection_closed_idempotent (s : ActorState) (id : Nat) :
    (s.reg id = none →
      actorStep s (ClientManagerMessage.connectionClosed id) = some s) ∧
    (actorStep s (ClientManagerMessage.connectionClosed id)).bind
        (fun s1 => actorStep s1 (ClientManagerMessage.connectionClosed id)) =
      actorStep s (ClientManagerMessage.connectionClosed id) := by
  constructor
  · intro h
    simp [actorStep, h]
  · cases hreg : s.reg id with
    | none => simp [actorStep, hreg]
    | some cc =>
      by_cases hid : id = cc.client_id
      · have h1 : actorStep s (ClientManagerMessage.connectionClosed id) =
            some { s with reg := mapRemove s.reg id } := by
          simp [actorStep, hreg, if_pos hid]
        have h2 : mapRemove s.reg id id = none := by simp [mapRemove]
        rw [h1]
        simp [actorStep, h2]
      · simp [actorStep, hreg, hid]

/-- Witness for C7 at the empty registry and identifier 0. -/
theorem c7_connection_closed_idempotent_witness :
    initActorState.reg 0 = none ∧
    actorStep initActorState (ClientManagerMessage.connectionClosed 0) =
      some initActorState :=
  ⟨rfl, (c7_connection_closed_idempotent initActorState 0).1 rfl⟩

/-- C8: the Encoding Adapter is total and non-failing — every byte list
decodes, with one defined character per byte — and the data bytes
0x41 0x42 decode to the text "AB". -/
theorem c8_decode_total (bs : List (Fin 256)) :
    (decodeCp437 bs).length = bs.length ∧
    decodeCp437 [(0x41 : Fin 256), (0x42 : Fin 256)] = "AB" := by
  constructor
  · simp [decodeCp437, String.length]
  · decide

/-- C9: for any session record, negotiating Terminal-type via an inbound
Do emits the fixed terminal-type string "ansi-bbs" as the
sub-negotiation payload, and negotiating Report-location via an inbound
Do emits the textual client network address recorded in the session's
`ClientConnection`. -/
theorem c9_subnegotiation_payloads (id : Nat) (peer : IpAddr) :
    bridgeResponse (mkClientConnection id peer).ip_addr.text TOpt.ttype Action.doAct =
      [Emit.negotiate Action.will TOpt.ttype,
       Emit.subnegotiate TOpt.ttype terminalType] ∧
    bridgeResponse (mkClientConnection id peer).ip_addr.text TOpt.sndloc Action.doAct =
      [Emit.negotiate Action.will TOpt.sndloc,
       Emit.subnegotiate TOpt.sndloc (mkClientConnection id peer).ip_addr.text] :=
  ⟨rfl, rfl⟩

set_option maxHeartbeats 1000000 in
set_option maxRecDepth 100000 in
/-- C10: every backend data byte at or above 0x80 decodes under CP437 to
a non-ASCII code point whose UTF-8 form is at least two bytes, every
byte below 0x80 passes through as the single identical byte, and there
is a payload for which the client receives more bytes than the backend
sent. -/
theorem c10_utf8_expansion :
    (∀ b : Fin 256, 0x80 ≤ b.val → 2 ≤ (utf8EncodeChar (cp437ToUnicode b.val)).length) ∧
    (∀ b : Fin 256, b.val < 0x80 → utf8EncodeChar (cp437ToUnicode b.val) = [b.val]) ∧
    (∃ bs : List (Fin 256), bs.length < (clientBytes bs).length) :=
  ⟨by decide, by decide, ⟨[0x80], by decide⟩⟩

/-- Witness for C10 at the bytes 0x80 and 0x41. -/
theorem c10_utf8_expansion_witness :
    (0x80 ≤ (0x80 : Fin 256).val ∧
      2 ≤ (utf8EncodeChar (cp437ToUnicode (0x80 : Fin 256).val)).length) ∧
    ((0x41 : Fin 256).val < 0x80 ∧
      utf8EncodeChar (cp437ToUnicode (0x41 : Fin 256).val) = [(0x41 : Fin 256).val]) :=
  ⟨⟨by decide, c10_utf8_expansion.1 0x80 (by decide)⟩,
   ⟨by decide, c10_utf8_expansion.2.1 0x41 (by decide)⟩⟩

end Triserver
